import Mathlib

/-!
Verification of the quic-go demo server (dual-stack HTTP/3 + HTTPS server
with pluggable congestion control).

Definitions shallowly embed the Go source:
  * `generatePRData`, `setupHandler`'s root and upload handlers (main package),
  * `ListenAndServe`'s setup sequence and its select race,
  * `main`'s configuration validation and listener spawning,
  * `NewCongestionHandler` (internal/congestion/send_algorithm.go),
  * `NewAckHandler` (internal/ackhandler).
Machine integers are modelled as `Nat`/`Int` with explicit `% 2^w` where the
Go code can wrap.  Fallible operations return `Option` or a result inductive.
-/

/-! ## Synthetic pseudo-random data (`generatePRData`)

Go source:
```
func generatePRData(l int) []byte {
    res := make([]byte, l)
    seed := uint64(1)
    for i := 0; i < l; i++ {
        seed = seed * 48271 % 2147483647
        res[i] = byte(seed)
    }
    return res
}
```
`seed` is a `uint64`, so the multiplication wraps modulo 2^64 before the
`% 2147483647` reduction. -/

/-- One loop iteration of `generatePRData`: `seed = seed * 48271 % 2147483647`
computed in `uint64` arithmetic. -/
def prNext (seed : Nat) : Nat :=
  seed * 48271 % 18446744073709551616 % 2147483647

/-- The loop of `generatePRData`, with the remaining iteration count first.
Each step updates the seed and emits `byte(seed)`, i.e. the low 8 bits. -/
def generatePRDataAux : Nat → Nat → List Nat
  | 0, _ => []
  | l + 1, seed =>
    let s := prNext seed
    s % 256 :: generatePRDataAux l s

/-- `generatePRData l` returns the `l` pseudo-random bytes produced from the
initial seed 1. -/
def generatePRData (l : Nat) : List Nat :=
  generatePRDataAux l 1

/-- Modelled from the spec: the seeded Lehmer generator, state s_0 = 1,
s_{i+1} = (s_i * 48271) mod (2^31 - 1). -/
def lehmerState : Nat → Nat
  | 0 => 1
  | i + 1 => lehmerState i * 48271 % (2 ^ 31 - 1)

/-- Modelled from the spec: the `l`-byte output sequence whose i-th byte is the
low 8 bits of the Lehmer state s_{i+1}. -/
def lehmerBytes (l : Nat) : List Nat :=
  (List.range l).map (fun i => lehmerState (i + 1) % 2 ^ 8)

/-- Lehmer steps from an arbitrary start state, for relating the loop to the
indexed specification. -/
def lehmerFrom (s : Nat) : Nat → Nat
  | 0 => s
  | i + 1 => lehmerFrom s i * 48271 % 2147483647

theorem lehmerFrom_one (i : Nat) : lehmerFrom 1 i = lehmerState i := by
  induction i with
  | zero => rfl
  | succ n ih => simp [lehmerFrom, lehmerState, ih]

theorem lehmerFrom_lt (s : Nat) (hs : s < 2147483647) (i : Nat) :
    lehmerFrom s i < 2147483647 := by
  cases i with
  | zero => exact hs
  | succ n => exact Nat.mod_lt _ (by norm_num)

/-- For in-range seeds the `uint64` wrap in `prNext` is a no-op. -/
theorem prNext_eq (s : Nat) (hs : s < 2147483647) :
    prNext s = s * 48271 % 2147483647 := by
  unfold prNext
  have h1 : s * 48271 < 18446744073709551616 := by
    calc s * 48271 ≤ 2147483646 * 48271 :=
          Nat.mul_le_mul_right _ (by omega)
      _ < 18446744073709551616 := by norm_num
  rw [Nat.mod_eq_of_lt h1]

theorem generatePRDataAux_length (l s : Nat) :
    (generatePRDataAux l s).length = l := by
  induction l generalizing s with
  | zero => rfl
  | succ n ih => simp [generatePRDataAux, ih]

theorem lehmerFrom_shift (s : Nat) (i : Nat) :
    lehmerFrom (s * 48271 % 2147483647) i = lehmerFrom s (i + 1) := by
  induction i with
  | zero => rfl
  | succ n ih => simp [lehmerFrom, ih]

theorem generatePRDataAux_getElem (l s : Nat) (hs : s < 2147483647)
    (i : Nat) (hi : i < (generatePRDataAux l s).length) :
    (generatePRDataAux l s)[i] = lehmerFrom s (i + 1) % 256 := by
  induction l generalizing s i with
  | zero => simp [generatePRDataAux_length] at hi
  | succ n ih =>
    cases i with
    | zero =>
      simp [generatePRDataAux, prNext_eq s hs, lehmerFrom]
    | succ j =>
      have hj : j < (generatePRDataAux n (prNext s)).length := by
        simp [generatePRDataAux_length] at hi ⊢
        omega
      have hlt : prNext s < 2147483647 := by
        unfold prNext; exact Nat.mod_lt _ (by norm_num)
      calc (generatePRDataAux (n + 1) s)[j + 1]
          = (generatePRDataAux n (prNext s))[j] := by
            simp [generatePRDataAux]
        _ = lehmerFrom (prNext s) (j + 1) % 256 := ih (prNext s) hlt j hj
        _ = lehmerFrom s (j + 2) % 256 := by
            rw [prNext_eq s hs, lehmerFrom_shift s]

/-- C4: `generatePRData l` is exactly the Lehmer sequence of the spec (seed 1,
multiplier 48271, modulus 2^31-1, byte i the low 8 bits of s_{i+1}), and has
exactly `l` bytes. -/
theorem generatePRData_lehmer_spec (l : Nat) :
    generatePRData l = lehmerBytes l ∧ (generatePRData l).length = l := by
  constructor
  · apply List.ext_getElem
    · simp [generatePRData, generatePRDataAux_length, lehmerBytes]
    · intro i h1 h2
      simp only [generatePRData]
      rw [generatePRDataAux_getElem l 1 (by norm_num) i
        (by simpa [generatePRData] using h1)]
      simp [lehmerBytes, lehmerFrom_one]
  · exact generatePRDataAux_length l 1

theorem generatePRDataAux_take (n : Nat) :
    ∀ m s, n ≤ m →
      (generatePRDataAux m s).take n = generatePRDataAux n s := by
  induction n with
  | zero => intro m s _; simp [generatePRDataAux]
  | succ k ih =>
    intro m s hm
    cases m with
    | zero => omega
    | succ m' =>
      simp only [generatePRDataAux, List.take_succ_cons]
      rw [ih m' (prNext s) (by omega)]

/-- C5: the generator is deterministic (same count twice gives identical
output) and position-pure (the first n bytes of the (n+1)-byte output are the
n-byte output). -/
theorem generatePRData_deterministic_pure (n : Nat) :
    generatePRData n = generatePRData n ∧
      (generatePRData (n + 1)).take n = generatePRData n :=
  ⟨rfl, generatePRDataAux_take n (n + 1) 1 (by omega)⟩

/-! ## The synthetic-content root handler

Go source (the `www == ""` branch of `setupHandler`):
```
mux.HandleFunc("/", func(w http.ResponseWriter, r *http.Request) {
    const maxSize = 1 << 30 // 1 GB
    num, err := strconv.ParseInt(strings.ReplaceAll(r.RequestURI, "/", ""), 10, 64)
    if err != nil || num <= 0 || num > maxSize {
        w.WriteHeader(400)
        return
    }
    w.Write(generatePRData(int(num)))
})
```
-/

/-- `strings.ReplaceAll(s, "/", "")`: remove every slash. -/
def stripSlashes (s : String) : String :=
  ⟨s.data.filter (fun c => c ≠ '/')⟩

/-- Decimal digit test. -/
def isDecDigit (c : Char) : Bool :=
  '0' ≤ c ∧ c ≤ '9'

/-- Numeric value of a digit string. -/
def digitsVal (l : List Char) : Nat :=
  l.foldl (fun acc c => acc * 10 + (c.toNat - 48)) 0

/-- `strconv.ParseInt(s, 10, 64)`: optional sign, nonempty run of decimal
digits, value within the signed 64-bit range; `none` models a non-nil error. -/
def goParseInt64 (s : String) : Option Int :=
  let (neg, digits) :=
    match s.data with
    | '-' :: rest => (true, rest)
    | '+' :: rest => (false, rest)
    | l => (false, l)
  if digits.isEmpty then none
  else if digits.all isDecDigit then
    let n := digitsVal digits
    if neg then
      if n > 2 ^ 63 then none else some (-(n : Int))
    else
      if n ≥ 2 ^ 63 then none else some (n : Int)
  else none

/-- An HTTP response as the handlers produce it: a status code and a body of
bytes.  A handler that never calls `WriteHeader` answers 200. -/
structure HttpResponse where
  status : Nat
  body : List Nat
deriving DecidableEq, Repr

/-- The root handler of `setupHandler` when no `www` directory is given. -/
def rootHandler (requestURI : String) : HttpResponse :=
  match goParseInt64 (stripSlashes requestURI) with
  | none => { status := 400, body := [] }
  | some num =>
    if num ≤ 0 ∨ num > 1073741824 then { status := 400, body := [] }
    else { status := 200, body := generatePRData num.toNat }

/-- C3: if the de-slashed path parses to n with 1 ≤ n ≤ 2^30 the root handler
answers 200 with exactly n bytes; for every other path (non-numeric,
out-of-int64-range, n ≤ 0, or n > 2^30) it answers 400 with an empty body. -/
theorem rootHandler_spec (requestURI : String) :
    match goParseInt64 (stripSlashes requestURI) with
    | some n =>
        if 1 ≤ n ∧ n ≤ 1073741824 then
          rootHandler requestURI = { status := 200, body := generatePRData n.toNat } ∧
            (rootHandler requestURI).body.length = n.toNat
        else
          rootHandler requestURI = { status := 400, body := [] }
    | none => rootHandler requestURI = { status := 400, body := [] } := by
  unfold rootHandler
  cases h : goParseInt64 (stripSlashes requestURI) with
  | none => simp
  | some n =>
    by_cases hn : 1 ≤ n ∧ n ≤ 1073741824
    · have hcond : ¬(n ≤ 0 ∨ n > 1073741824) := by omega
      simp only []
      rw [if_pos hn, if_neg hcond]
      exact ⟨rfl, generatePRDataAux_length _ 1⟩
    · have hcond : n ≤ 0 ∨ n > 1073741824 := by omega
      simp only []
      rw [if_neg hn, if_pos hcond]

/-! ## MD5 (RFC 1321), as `crypto/md5` computes it

The upload handler answers `fmt.Fprintf(w, "%x", md5.Sum(b))`: the lowercase
hexadecimal digest of the uploaded bytes.  `crypto/md5` is standard-library
code, embedded here as the MD5 algorithm it implements. -/

/-- The 64 MD5 round constants, floor(2^32 * |sin(i+1)|). -/
def md5K : List Nat := [
  0xd76aa478, 0xe8c7b756, 0x242070db, 0xc1bdceee,
  0xf57c0faf, 0x4787c62a, 0xa8304613, 0xfd469501,
  0x698098d8, 0x8b44f7af, 0xffff5bb1, 0x895cd7be,
  0x6b901122, 0xfd987193, 0xa679438e, 0x49b40821,
  0xf61e2562, 0xc040b340, 0x265e5a51, 0xe9b6c7aa,
  0xd62f105d, 0x02441453, 0xd8a1e681, 0xe7d3fbc8,
  0x21e1cde6, 0xc33707d6, 0xf4d50d87, 0x455a14ed,
  0xa9e3e905, 0xfcefa3f8, 0x676f02d9, 0x8d2a4c8a,
  0xfffa3942, 0x8771f681, 0x6d9d6122, 0xfde5380c,
  0xa4beea44, 0x4bdecfa9, 0xf6bb4b60, 0xbebfbc70,
  0x289b7ec6, 0xeaa127fa, 0xd4ef3085, 0x04881d05,
  0xd9d4d039, 0xe6db99e5, 0x1fa27cf8, 0xc4ac5665,
  0xf4292244, 0x432aff97, 0xab9423a7, 0xfc93a039,
  0x655b59c3, 0x8f0ccc92, 0xffeff47d, 0x85845dd1,
  0x6fa87e4f, 0xfe2ce6e0, 0xa3014314, 0x4e0811a1,
  0xf7537e82, 0xbd3af235, 0x2ad7d2bb, 0xeb86d391]

/-- The MD5 per-step left-rotation amounts. -/
def md5S : List Nat := [
  7, 12, 17, 22, 7, 12, 17, 22, 7, 12, 17, 22, 7, 12, 17, 22,
  5, 9, 14, 20, 5, 9, 14, 20, 5, 9, 14, 20, 5, 9, 14, 20,
  4, 11, 16, 23, 4, 11, 16, 23, 4, 11, 16, 23, 4, 11, 16, 23,
  6, 10, 15, 21, 6, 10, 15, 21, 6, 10, 15, 21, 6, 10, 15, 21]

/-- The four MD5 round functions on 32-bit words (`Nat.xor x 4294967295` is
32-bit complement). -/
def md5F (r b c d : Nat) : Nat :=
  if r = 0 then Nat.lor (Nat.land b c) (Nat.land (Nat.xor b 4294967295) d)
  else if r = 1 then Nat.lor (Nat.land d b) (Nat.land (Nat.xor d 4294967295) c)
  else if r = 2 then Nat.xor (Nat.xor b c) d
  else Nat.xor c (Nat.lor b (Nat.xor d 4294967295))

/-- The MD5 message-word index for step `i` of round `r`. -/
def md5g (r i : Nat) : Nat :=
  if r = 0 then i % 16
  else if r = 1 then (5 * i + 1) % 16
  else if r = 2 then (3 * i + 5) % 16
  else 7 * i % 16

/-- 32-bit left rotation. -/
def rotl32 (x s : Nat) : Nat :=
  (x * 2 ^ s + x / 2 ^ (32 - s)) % 4294967296

/-- One of the 64 MD5 steps. -/
def md5Step (M : List Nat) (st : Nat × Nat × Nat × Nat) (i : Nat) :
    Nat × Nat × Nat × Nat :=
  let (a, b, c, d) := st
  let r := i / 16
  let f := (md5F r b c d + a + md5K.getD i 0 + M.getD (md5g r i) 0) % 4294967296
  (d, (b + rotl32 f (md5S.getD i 0)) % 4294967296, b, c)

/-- Little-endian bytes to 32-bit words. -/
def toWords : List Nat → List Nat
  | b0 :: b1 :: b2 :: b3 :: rest =>
    (b0 + 256 * b1 + 65536 * b2 + 16777216 * b3) :: toWords rest
  | _ => []

/-- Compress one 64-byte block into the running digest state. -/
def md5Block (st : Nat × Nat × Nat × Nat) (block : List Nat) :
    Nat × Nat × Nat × Nat :=
  let M := toWords block
  let (a, b, c, d) := (List.range 64).foldl (md5Step M) st
  let (a0, b0, c0, d0) := st
  ((a0 + a) % 4294967296, (b0 + b) % 4294967296,
   (c0 + c) % 4294967296, (d0 + d) % 4294967296)

/-- MD5 padding: 0x80, zeros to 56 mod 64, then the bit length as 8
little-endian bytes (modulo 2^64). -/
def md5Pad (msg : List Nat) : List Nat :=
  let bitLen := msg.length * 8 % 18446744073709551616
  let padLen := (120 - (msg.length + 1) % 64) % 64
  msg ++ [128] ++ List.replicate padLen 0 ++
    (List.range 8).map (fun i => bitLen / 2 ^ (8 * i) % 256)

/-- The final MD5 state over all blocks of the padded message. -/
def md5Words (msg : List Nat) : Nat × Nat × Nat × Nat :=
  let padded := md5Pad msg
  let blocks := (List.range (padded.length / 64)).map
    (fun i => (padded.drop (64 * i)).take 64)
  blocks.foldl md5Block (1732584193, 4023233417, 2562383102, 271733878)

/-- A 32-bit word as 4 little-endian bytes. -/
def wordBytes (w : Nat) : List Nat :=
  [w % 256, w / 256 % 256, w / 65536 % 256, w / 16777216 % 256]

/-- `md5.Sum`: the 16-byte MD5 digest. -/
def md5Sum (msg : List Nat) : List Nat :=
  let (a, b, c, d) := md5Words msg
  wordBytes a ++ wordBytes b ++ wordBytes c ++ wordBytes d

/-- The lowercase hexadecimal alphabet used by `%x`. -/
def hexChars : List Char := "0123456789abcdef".data

/-- Lowercase hex digit of `n % 16`. -/
def hexDigit (n : Nat) : Char := hexChars.getD (n % 16) '0'

/-- A byte as two lowercase hex characters, high nibble first. -/
def byteToHex (b : Nat) : List Char := [hexDigit (b / 16), hexDigit b]

/-- `fmt.Sprintf("%x", bytes)`: each byte as two lowercase hex characters. -/
def bytesToHexChars (bs : List Nat) : List Char := bs.flatMap byteToHex

/-- The lowercase hexadecimal MD5 digest string of a byte sequence. -/
def md5hex (msg : List Nat) : String := ⟨bytesToHexChars (md5Sum msg)⟩

theorem md5Sum_length (msg : List Nat) : (md5Sum msg).length = 16 := by
  unfold md5Sum
  rcases md5Words msg with ⟨a, b, c, d⟩
  simp [wordBytes]

theorem bytesToHexChars_length (bs : List Nat) :
    (bytesToHexChars bs).length = 2 * bs.length := by
  induction bs with
  | nil => rfl
  | cons b t ih =>
    simp [bytesToHexChars, byteToHex] at ih ⊢
    omega

theorem hexDigit_mem (n : Nat) : hexDigit n ∈ hexChars := by
  have h16 : n % 16 < 16 := Nat.mod_lt _ (by norm_num)
  have hall : ∀ m, m < 16 → hexChars.getD m '0' ∈ hexChars := by decide
  exact hall (n % 16) h16

theorem bytesToHexChars_lower (bs : List Nat) :
    (bytesToHexChars bs).all (fun c => hexChars.contains c) = true := by
  induction bs with
  | nil => rfl
  | cons b t ih =>
    have hb : (byteToHex b).all (fun c => hexChars.contains c) = true := by
      simp [byteToHex, hexDigit_mem]
    calc (bytesToHexChars (b :: t)).all (fun c => hexChars.contains c)
        = ((byteToHex b).all (fun c => hexChars.contains c) &&
            (bytesToHexChars t).all (fun c => hexChars.contains c)) := by
          simp [bytesToHexChars, List.flatMap_cons, List.all_append]
      _ = true := by rw [hb, ih]; rfl

/-! ## The upload handler

Go source (`setupHandler`, route `/upload`):
```
mux.HandleFunc("/upload", func(w http.ResponseWriter, r *http.Request) {
    if r.Method == http.MethodPost {
        err := r.ParseMultipartForm(1 << 30) // 1 GB
        if err == nil {
            var file multipart.File
            file, _, err = r.FormFile("uploadfile")
            if err == nil {
                var size int64
                if sizeInterface, ok := file.(Size); ok {
                    size = sizeInterface.Size()
                    b := make([]byte, size)
                    file.Read(b)
                    md5 := md5.Sum(b)
                    fmt.Fprintf(w, "%x", md5)
                    return
                }
                err = errors.New("couldn't get uploaded file size")
            }
        }
        utils.DefaultLogger.Infof("Error receiving upload: %#v", err)
    }
    io.WriteString(w, `...form...`)
})
```
-/

/-- An upload request as the handler observes it: its method, whether
`ParseMultipartForm` succeeds, the `uploadfile` field's bytes when `FormFile`
succeeds, and whether the file value implements the `Size` interface. -/
structure UploadRequest where
  method : String
  parseFormOk : Bool
  formFile : Option (List Nat)
  hasSize : Bool
deriving DecidableEq

/-- A response with a text body (the digest or the fallback form). -/
structure TextResponse where
  status : Nat
  body : String
deriving DecidableEq

/-- The fallback HTML upload form the handler writes on every non-digest
path. -/
def uploadFormHTML : String :=
  "<html><body><form action=\"/demo/upload\" method=\"post\" enctype=\"multipart/form-data\">\n\t\t\t\t<input type=\"file\" name=\"uploadfile\"><br>\n\t\t\t\t<input type=\"submit\">\n\t\t\t</form></body></html>"

/-- The `/upload` handler.  No branch calls `WriteHeader`, so every response
carries status 200. -/
def uploadHandler (r : UploadRequest) : TextResponse :=
  if r.method = "POST" then
    if r.parseFormOk then
      match r.formFile with
      | some data =>
        if r.hasSize then { status := 200, body := md5hex data }
        else { status := 200, body := uploadFormHTML }
      | none => { status := 200, body := uploadFormHTML }
    else { status := 200, body := uploadFormHTML }
  else { status := 200, body := uploadFormHTML }

/-- C6: a well-formed POST of N bytes under `uploadfile` (N ≤ 1 GiB) is
answered with exactly the 32-character lowercase-hex MD5 digest of those
bytes; a POST with no file field, malformed multipart data, or a failing size
introspection — and a non-POST request — gets the fallback HTML form with a
non-error (200) status. -/
theorem uploadHandler_spec (data : List Nat) (_hlen : data.length ≤ 1073741824) :
    uploadHandler { method := "POST", parseFormOk := true, formFile := some data, hasSize := true }
      = { status := 200, body := md5hex data } ∧
    (md5hex data).length = 32 ∧
    (md5hex data).data.all (fun c => hexChars.contains c) = true ∧
    uploadHandler { method := "POST", parseFormOk := false, formFile := none, hasSize := false }
      = { status := 200, body := uploadFormHTML } ∧
    uploadHandler { method := "POST", parseFormOk := true, formFile := none, hasSize := false }
      = { status := 200, body := uploadFormHTML } ∧
    uploadHandler { method := "POST", parseFormOk := true, formFile := some data, hasSize := false }
      = { status := 200, body := uploadFormHTML } ∧
    uploadHandler { method := "GET", parseFormOk := true, formFile := some data, hasSize := true }
      = { status := 200, body := uploadFormHTML } := by
  refine ⟨rfl, ?_, ?_, rfl, rfl, rfl, rfl⟩
  · show (bytesToHexChars (md5Sum data)).length = 32
    rw [bytesToHexChars_length, md5Sum_length]
  · exact bytesToHexChars_lower (md5Sum data)

set_option maxRecDepth 8192 in
/-- Witness for C6 at a 56-byte upload (56 repetitions of the byte 0x61):
the hypothesis 56 ≤ 1 GiB holds and the response is the known MD5 digest of
that sequence.  Length 56 falls in the residue class 56..62 mod 64 whose
padding spills into a second block, so this input exercises the multi-block
padding path of the digest. -/
theorem uploadHandler_spec_witness :
    (List.replicate 56 97).length ≤ 1073741824 ∧
    uploadHandler { method := "POST", parseFormOk := true, formFile := some (List.replicate 56 97), hasSize := true }
      = { status := 200, body := "3b0c8ac703f828b04c6c197006d17218" } := by
  refine ⟨by decide, ?_⟩
  have h := (uploadHandler_spec (List.replicate 56 97) (by decide)).1
  rw [h]
  decide

/-! ## Congestion control types and factory

From `internal/congestion` (the type declarations and
`send_algorithm.go`).  `CongestionControlType` and `HystartControlType` are Go
`int`s (`iota` constants 0, 1, 2), so they are embedded as `Int` to keep every
out-of-range value representable. -/

/-- Go `type CongestionControlType int`. -/
abbrev CongestionControlType := Int

def NewRenoControlType : CongestionControlType := 0
def CubicControlType : CongestionControlType := 1
def BbrControlType : CongestionControlType := 2

/-- Go `type HystartControlType int`. -/
abbrev HystartControlType := Int

def HystartTypeStandard : HystartControlType := 0
def HystartTypePlusPlus : HystartControlType := 1
def HystartTypeNone : HystartControlType := 2

/-- Go `type CongestionOptions struct`. -/
structure CongestionOptions where
  controlType : CongestionControlType
  hystart : HystartControlType
deriving DecidableEq

/-- `hystartTypeToString` from send_algorithm.go. -/
def hystartTypeToString (t : HystartControlType) : String :=
  if t = HystartTypeStandard then "standard"
  else if t = HystartTypePlusPlus then "++"
  else if t = HystartTypeNone then "none"
  else ""

/-- `congestionTypeToString` from send_algorithm.go. -/
def congestionTypeToString (t : CongestionControlType) : String :=
  if t = CubicControlType then "Cubic"
  else if t = NewRenoControlType then "NewReno"
  else if t = BbrControlType then "Bbr"
  else ""

/-- Modelled from the spec: `NewCubicSender` is not under src/; following §4.2
it constructs the one shared cubic-family sender, recording the injected RTT
statistics reference (a pointer identity), the initial datagram size, the
"use classic additive-increase (Reno)" flag, and the slow-start variant. -/
structure CubicSender where
  rttStats : Nat
  initialMaxDatagramSize : Nat
  reno : Bool
  hystart : HystartControlType
deriving DecidableEq

def NewCubicSender (rttStats : Nat) (initialMaxDatagramSize : Nat)
    (reno : Bool) (hystart : HystartControlType) : CubicSender :=
  { rttStats := rttStats, initialMaxDatagramSize := initialMaxDatagramSize,
    reno := reno, hystart := hystart }

/-- A log level of `utils.Logger`. -/
inductive LogLevel
  | debug
  | info
  | error
deriving DecidableEq

/-- One emitted log line. -/
structure LogEntry where
  level : LogLevel
  msg : String
deriving DecidableEq

/-- An info-level log line. -/
def infoLog (msg : String) : LogEntry :=
  { level := .info, msg := msg }

/-- `NewCongestionHandler`'s observable outcome: the constructed sender and
the log it emits. -/
structure CongestionHandlerResult where
  sender : CubicSender
  logs : List LogEntry
deriving DecidableEq

/-- `NewCongestionHandler` from send_algorithm.go: a switch on the control
type whose `NewRenoControlType` case builds the cubic-family sender with the
Reno flag set, and whose `default` case builds it with the flag clear; both
cases log the resolved choice at info level. -/
def NewCongestionHandler (rttStats : Nat) (initialMaxDatagramSize : Nat)
    (options : CongestionOptions) : CongestionHandlerResult :=
  if options.controlType = NewRenoControlType then
    { sender := NewCubicSender rttStats initialMaxDatagramSize true options.hystart,
      logs := [infoLog ("Congestion Control: NewReno with hystart: " ++ hystartTypeToString options.hystart)] }
  else
    { sender := NewCubicSender rttStats initialMaxDatagramSize false options.hystart,
      logs := [infoLog ("Congestion Control: Cubic with hystart: " ++ hystartTypeToString options.hystart)] }

/-- C7: Reno and Cubic share one implementation toggled by a boolean — the
NewReno control type yields the cubic-family sender with the Reno flag true,
the Cubic control type yields it with the flag false; in both cases the
independently resolved hystart variant is injected unchanged and the resolved
pair is logged at info level. -/
theorem newCongestionHandler_reno_cubic (rtt sz : Nat) (h : HystartControlType) :
    (NewCongestionHandler rtt sz { controlType := NewRenoControlType, hystart := h }).sender
        = NewCubicSender rtt sz true h ∧
    (NewCongestionHandler rtt sz { controlType := NewRenoControlType, hystart := h }).logs
        = [infoLog ("Congestion Control: NewReno with hystart: " ++ hystartTypeToString h)] ∧
    (NewCongestionHandler rtt sz { controlType := CubicControlType, hystart := h }).sender
        = NewCubicSender rtt sz false h ∧
    (NewCongestionHandler rtt sz { controlType := CubicControlType, hystart := h }).logs
        = [infoLog ("Congestion Control: Cubic with hystart: " ++ hystartTypeToString h)] := by
  refine ⟨?_, ?_, ?_, ?_⟩ <;>
    simp [NewCongestionHandler, NewRenoControlType, CubicControlType]

/-- C8: the factory is total and has no error branch — every control type
other than NewReno (Cubic, Bbr, and any out-of-range value alike) yields the
cubic-family sender with the Reno flag false and the hystart variant intact. -/
theorem newCongestionHandler_default (rtt sz : Nat) (t : CongestionControlType)
    (h : HystartControlType) (ht : t ≠ NewRenoControlType) :
    (NewCongestionHandler rtt sz { controlType := t, hystart := h }).sender
      = NewCubicSender rtt sz false h := by
  simp [NewCongestionHandler, ht]

/-- Witness for C8 at the Bbr control type, which is not selectable by name
but is still mapped to the Cubic sender. -/
theorem newCongestionHandler_default_witness :
    (NewCongestionHandler 0 1252 { controlType := BbrControlType, hystart := HystartTypeStandard }).sender
      = NewCubicSender 0 1252 false HystartTypeStandard :=
  newCongestionHandler_default 0 1252 BbrControlType HystartTypeStandard (by decide)

/-! ## The ack-handler pair factory

From `internal/ackhandler`'s `NewAckHandler`.  The bodies of
`newSentPacketHandler` and `newReceivedPacketHandler` are not under src/ (only
their call sites are), so they are modelled from the spec as constructors that
record their arguments; pointer-valued collaborators (RTT statistics, tracer,
logger) are modelled by identity tokens. -/

/-- Go `protocol.Perspective`. -/
inductive Perspective
  | client
  | server
deriving DecidableEq

/-- Modelled from the spec: the sent-packet handler records the constructor
arguments of `newSentPacketHandler`, in particular the shared RTT-statistics
reference and the congestion options it will hand to the strategy factory. -/
structure SentPacketHandler where
  initialPacketNumber : Int
  initialMaxDatagramSize : Nat
  rttStats : Nat
  perspective : Perspective
  congestion : CongestionOptions
  tracer : Nat
  logger : Nat
deriving DecidableEq

def newSentPacketHandler (initialPacketNumber : Int)
    (initialMaxDatagramSize : Nat) (rttStats : Nat) (pers : Perspective)
    (congestion : CongestionOptions) (tracer : Nat) (logger : Nat) :
    SentPacketHandler :=
  { initialPacketNumber := initialPacketNumber,
    initialMaxDatagramSize := initialMaxDatagramSize, rttStats := rttStats,
    perspective := pers, congestion := congestion, tracer := tracer,
    logger := logger }

/-- Modelled from the spec: the received-packet handler records the sent
handler it forwards ack/loss signals to, the shared RTT-statistics reference,
and the protocol version. -/
structure ReceivedPacketHandler where
  sentPackets : SentPacketHandler
  rttStats : Nat
  logger : Nat
  version : Nat
deriving DecidableEq

def newReceivedPacketHandler (sph : SentPacketHandler) (rttStats : Nat)
    (logger : Nat) (version : Nat) : ReceivedPacketHandler :=
  { sentPackets := sph, rttStats := rttStats, logger := logger,
    version := version }

/-- `NewAckHandler` from internal/ackhandler: build the sent handler, then the
received handler over it, and return the pair. -/
def NewAckHandler (initialPacketNumber : Int) (initialMaxDatagramSize : Nat)
    (rttStats : Nat) (pers : Perspective) (tracer : Nat) (logger : Nat)
    (version : Nat) (congestion : CongestionOptions) :
    SentPacketHandler × ReceivedPacketHandler :=
  let sph := newSentPacketHandler initialPacketNumber initialMaxDatagramSize
    rttStats pers congestion tracer logger
  (sph, newReceivedPacketHandler sph rttStats logger version)

/-- C9: the pair returned by `NewAckHandler` is wired so that the received
handler holds exactly the sent handler returned alongside it, both reference
the same RTT-statistics object, and the congestion options flow into the sent
handler's construction. -/
theorem newAckHandler_wiring (pn : Int) (sz rtt : Nat) (pers : Perspective)
    (tracer logger version : Nat) (cong : CongestionOptions) :
    (NewAckHandler pn sz rtt pers tracer logger version cong).2.sentPackets
        = (NewAckHandler pn sz rtt pers tracer logger version cong).1 ∧
    (NewAckHandler pn sz rtt pers tracer logger version cong).1.rttStats = rtt ∧
    (NewAckHandler pn sz rtt pers tracer logger version cong).2.rttStats = rtt ∧
    (NewAckHandler pn sz rtt pers tracer logger version cong).1.congestion = cong :=
  ⟨rfl, rfl, rfl, rfl⟩

/-! ## The Dual-Stack Listener (`ListenAndServe`)

Setup sequence from main:
```
certs[0], err = tls.LoadX509KeyPair(certFile, keyFile)   // error → return
udpAddr, err := net.ResolveUDPAddr("udp", addr)          // error → return
udpConn, err := net.ListenUDP("udp", udpAddr)            // error → return; defer Close
tcpAddr, err := net.ResolveTCPAddr("tcp", addr)          // error → return
tcpConn, err := net.ListenTCP("tcp", tcpAddr)            // error → return; defer Close
tlsConn := tls.NewListener(tcpConn, tlsConfig)           // defer Close
```
then the race:
```
select {
case err := <-hErr:
    quicServer.Close()
    return err
case err := <-qErr:
    // Cannot close the HTTP server or wait for requests to complete properly :/
    return err
}
```
-/

/-- The environment `ListenAndServe` runs its setup in: whether each fallible
external call succeeds. -/
structure ListenEnv where
  certKeyValid : Bool
  udpResolveOk : Bool
  udpListenOk : Bool
  tcpResolveOk : Bool
  tcpListenOk : Bool
deriving DecidableEq

/-- Where `ListenAndServe` ends up after its setup sequence: an early error
return from one of the five fallible steps, or the serving race. -/
inductive ListenSetupResult
  | errCertLoad
  | errUdpResolve
  | errUdpListen
  | errTcpResolve
  | errTcpListen
  | serving
deriving DecidableEq

/-- The setup sequence of `ListenAndServe`, in source order.  The key-pair
load comes first, so with an invalid certificate or key the function returns
before any socket is opened. -/
def listenAndServeSetup (env : ListenEnv) : ListenSetupResult :=
  if env.certKeyValid = false then .errCertLoad
  else if env.udpResolveOk = false then .errUdpResolve
  else if env.udpListenOk = false then .errUdpListen
  else if env.tcpResolveOk = false then .errTcpResolve
  else if env.tcpListenOk = false then .errTcpListen
  else .serving

/-- The first of the two server goroutines to deliver on its channel: the
stream (HTTP/TLS) server on `hErr` or the datagram (QUIC) server on `qErr`,
with its error (`none` models a nil error, i.e. clean shutdown). -/
inductive ServerEvent
  | streamDone (e : Option String)
  | datagramDone (e : Option String)
deriving DecidableEq

/-- The actions `ListenAndServe` performs after the select fires, in order:
the taken branch's explicit close (if any), the three deferred socket closes
(LIFO), and the return of the branch's error.  `closeHttpServer` is a possible
action the code never performs. -/
inductive ListenAction
  | closeQuicServer
  | closeHttpServer
  | closeTlsConn
  | closeTcpConn
  | closeUdpConn
  | ret (e : Option String)
deriving DecidableEq

/-- The select race at the end of `ListenAndServe`: the branch of the first
channel to deliver runs, then the deferred closes, then the function returns
that branch's error. -/
def listenAndServeFinish : ServerEvent → List ListenAction
  | .streamDone e =>
    [.closeQuicServer, .closeTlsConn, .closeTcpConn, .closeUdpConn, .ret e]
  | .datagramDone e =>
    [.closeTlsConn, .closeTcpConn, .closeUdpConn, .ret e]

/-- The value a finish trace returns. -/
def traceResult (tr : List ListenAction) : Option (Option String) :=
  match tr.getLast? with
  | some (.ret e) => some e
  | _ => none

/-- C1: the termination race is asymmetric — when the stream server finishes
first the QUIC server is explicitly closed and the stream server's error
(nil on clean shutdown) is returned; when the datagram server finishes first
its error is returned at once, the QUIC server is not re-closed and the
stream (HTTP) server is never explicitly stopped. -/
theorem listenAndServeFinish_asymmetric (e : Option String) :
    (listenAndServeFinish (.streamDone e)).contains .closeQuicServer = true ∧
    traceResult (listenAndServeFinish (.streamDone e)) = some e ∧
    (listenAndServeFinish (.streamDone e)).contains .closeHttpServer = false ∧
    (listenAndServeFinish (.datagramDone e)).contains .closeQuicServer = false ∧
    (listenAndServeFinish (.datagramDone e)).contains .closeHttpServer = false ∧
    traceResult (listenAndServeFinish (.datagramDone e)) = some e :=
  ⟨rfl, rfl, rfl, rfl, rfl, rfl⟩

/-! ## `main`: configuration validation and listener spawning

Validation sequence from the source:
```
if *certFile == "" { os.Exit(1) } else if os.Stat missing { os.Exit(1) }
if *keyFile == ""  { os.Exit(1) } else if os.Stat missing { os.Exit(1) }
if len(bs) == 0 { bs = binds{"localhost:6121"} }
congestionControl, found := congestionMap[*congestionAlgo]; if !found { os.Exit(1) }
hystartControl, found := hystartMap[*hystart]; if !found { os.Exit(1) }
...
for _, b := range bs { go func() { ... ListenAndServe(b, ...) ... }() }
wg.Wait()
```
Note `main` only checks that the certificate and key files *exist*; whether
they parse is discovered later, inside each listener's
`tls.LoadX509KeyPair`. -/

/-- The `congestionMap` literal from main. -/
def congestionMapLookup : String → Option CongestionControlType
  | "newreno" => some NewRenoControlType
  | "cubic" => some CubicControlType
  | _ => none

/-- The `hystartMap` literal from main. -/
def hystartMapLookup : String → Option HystartControlType
  | "standard" => some HystartTypeStandard
  | "plusplus" => some HystartTypePlusPlus
  | "none" => some HystartTypeNone
  | _ => none

/-- The configuration `main` validates, with the file-system facts it
consults (`os.Stat` existence checks). -/
structure MainConfig where
  certFile : String
  certFileExists : Bool
  keyFile : String
  keyFileExists : Bool
  congestionAlgo : String
  hystart : String
  binds : List String
deriving DecidableEq

/-- `main`'s validation and spawning, as (process exit status, addresses for
which a listener goroutine is started).  Every `os.Exit(1)` branch yields
`(1, [])`: status 1 and no listener started.  When validation passes, `main`
spawns one goroutine per bind target, waits on the `WaitGroup`, and returns
normally — exit status 0 — whatever errors the listeners later report. -/
def mainRun (c : MainConfig) : Nat × List String :=
  if c.certFile = "" then (1, [])
  else if c.certFileExists = false then (1, [])
  else if c.keyFile = "" then (1, [])
  else if c.keyFileExists = false then (1, [])
  else if (congestionMapLookup c.congestionAlgo).isNone then (1, [])
  else if (hystartMapLookup c.hystart).isNone then (1, [])
  else (0, if c.binds.isEmpty then ["localhost:6121"] else c.binds)

/-- C2 (amended): a missing certificate or key — empty path or nonexistent
file — an unknown congestion-algorithm name, or an unknown hystart name makes
`main` exit with status 1 before any listener goroutine is started (so before
any socket is opened), and unknown-name resolution fails deterministically
with no partial side effects; moreover a key-pair that fails to load makes
each listener return its certificate error before that listener opens any
socket.  (An existing-but-unparsable certificate, by contrast, is *not*
caught by `main`: see the counterexample.) -/
theorem mainRun_fatal_config (c : MainConfig)
    (h : c.certFile = "" ∨ c.certFileExists = false ∨ c.keyFile = "" ∨
      c.keyFileExists = false ∨ congestionMapLookup c.congestionAlgo = none ∨
      hystartMapLookup c.hystart = none) :
    mainRun c = (1, []) ∧
    (∀ env : ListenEnv, env.certKeyValid = false →
      listenAndServeSetup env = .errCertLoad) := by
  constructor
  · unfold mainRun
    rcases h with h | h | h | h | h | h <;> simp [h, Option.isNone_iff_eq_none]
  · intro env henv
    unfold listenAndServeSetup
    rw [henv]
    rfl

/-- Witness for C2 at an unknown congestion-algorithm name: `bbr` is not in
`congestionMap`, so the process exits with status 1 and starts no listener. -/
theorem mainRun_fatal_config_witness :
    mainRun { certFile := "cert.pem", certFileExists := true, keyFile := "key.pem", keyFileExists := true, congestionAlgo := "bbr", hystart := "standard", binds := ["localhost:6121"] } = (1, []) :=
  (mainRun_fatal_config _ (by decide)).1

/-- Counterexample to C2 as stated: an *invalid* (existing but unparsable)
certificate does not terminate the process with a non-zero status before any
listener starts.  `main`'s checks all pass, a listener goroutine is started
for the default bind target, the listener's key-pair load then fails and is
returned as an ordinary listener error, and the process exit status is 0. -/
theorem mainRun_invalid_cert_counterexample :
    mainRun { certFile := "cert.pem", certFileExists := true, keyFile := "key.pem", keyFileExists := true, congestionAlgo := "newreno", hystart := "standard", binds := [] } = (0, ["localhost:6121"]) ∧
    listenAndServeSetup { certKeyValid := false, udpResolveOk := true, udpListenOk := true, tcpResolveOk := true, tcpListenOk := true } = .errCertLoad := by
  exact ⟨rfl, rfl⟩

/-! ## The Server Orchestrator: the spawn loop of `main`

Go source:
```
var wg sync.WaitGroup
wg.Add(len(bs))
for _, b := range bs {
    bCap := b
    go func() {
        var err error
        logger.Infof("Start server on %s\n", bCap)
        err = ListenAndServe(b, *certFile, *keyFile, *www, quicConf)
        if err != nil {
            fmt.Println(err)
        }
        wg.Done()
    }()
}
wg.Wait()
```
Under pre-1.22 Go semantics the range loop has ONE variable `b`, shared by
every closure; `bCap := b` is a fresh per-iteration copy.  The goroutine body
logs `bCap` (its own iteration's address) but calls `ListenAndServe(b, ...)`
with the shared variable, whose value is whatever iteration the loop has
reached when the goroutine's read happens.  A schedule is modelled by the
iteration index current at each goroutine's read: goroutine `i` exists only
from iteration `i` on and `b` never goes back, so its read sees `bs[σ i]`
with `i ≤ σ i < bs.length`. -/

/-- What one spawned listener goroutine observes: the address it logs
(`bCap`, its own) and the address it passes to `ListenAndServe` (`b`, the
shared loop variable at read time). -/
structure ListenerRun where
  logged : String
  served : String
deriving DecidableEq

/-- The loop's goroutines under schedule `σ`. -/
def listenerRuns (bs : List String) (σ : Nat → Nat) : List ListenerRun :=
  (List.range bs.length).map
    (fun i => { logged := bs.getD i "", served := bs.getD (σ i) "" })

/-- `σ` is a possible schedule for `bs`: goroutine `i` reads the loop
variable no earlier than its own iteration and before the loop ends. -/
def validSchedule (bs : List String) (σ : Nat → Nat) : Bool :=
  (List.range bs.length).all (fun i => decide (i ≤ σ i) && decide (σ i < bs.length))

/-- C10 (failing input): with two bind targets and the schedule in which both
goroutines read `b` only after the loop has reached its last iteration — a
valid schedule — the first listener logs "Start server on 127.0.0.1:6121" yet
passes 127.0.0.1:6122 to `ListenAndServe`; both listeners serve the second
target and nobody serves the first.  The code contradicts both the claim and
its own log line. -/
theorem listenerRuns_capture_bug :
    validSchedule ["127.0.0.1:6121", "127.0.0.1:6122"] (fun _ => 1) = true ∧
    listenerRuns ["127.0.0.1:6121", "127.0.0.1:6122"] (fun _ => 1) =
      [{ logged := "127.0.0.1:6121", served := "127.0.0.1:6122" }, { logged := "127.0.0.1:6122", served := "127.0.0.1:6122" }] ∧
    (listenerRuns ["127.0.0.1:6121", "127.0.0.1:6122"] (fun _ => 1)).filter (fun r => r.served = "127.0.0.1:6121") = [] := by
  refine ⟨rfl, rfl, by decide⟩
